import Mathlib

/-!
Verification of the Bilibili recommendation-list creators blocker userscript.

The repository has two variants of the same userscript (`src/main.js` and an
unnamed variant): both share the URL parser `parseUidFromUrl`, the request
handler `blockUser`, the DOM extractor `getRecommendationUids` and the
sequential batch loop of `startBatchBlock`; the unnamed variant additionally
has `expandListIfNeeded` and omits the alert inside the extractor.

Modelling conventions:
* The module-level `csrf_token` (read once from the cookie at load) is an
  explicit `Option String` argument; JavaScript's `!csrf_token` test is
  `isTruthy`, false for `null` and for the empty string.
* The DOM is a `Dom` record: `container = none` models
  `document.querySelector(containerSelector)` returning null, otherwise the
  list of anchor elements matched by the up-link selector, each carrying its
  resolved `href` string.  `expandButton` models the expand control of the
  unnamed variant: `none` = absent, `some v` = present with visibility `v`
  (`offsetParent !== null`).
* A `fetch` call is an oracle `String → FetchOutcome`.  Per the fetch API,
  the promise rejects only on a transport failure (`.failure`); any HTTP
  response, whatever its status, resolves, and `res.json()` then throws
  exactly when the body is not valid JSON (`body = none`).  Both throws land
  in the `catch` branch of `blockUser`.
* Observable actions are collected in an `Event` trace: issued network
  requests, `alert`/`confirm` dialogs, the status-overlay updates, the expand
  click, and `sleep` calls.  `console.*` logging is not modelled.
* JavaScript object literals with optional fields (`uid`, `msg`) are modelled
  with `Option` fields in `BlockResult`.
-/

/-! ## Configuration (the `CONFIG` object of each variant) -/

structure Config where
  containerSelector : String
  upLinkSelector : String
  blockInterval : Nat
deriving DecidableEq

/-- `CONFIG` of `src/main.js`. -/
def CONFIG : Config :=
  { containerSelector := ".recommend-list-v1"
    upLinkSelector := ".video-page-card-small .upname a"
    blockInterval := 300 }

structure ConfigV2 where
  containerSelector : String
  expandBtnSelector : String
  upLinkSelector : String
  blockInterval : Nat
  expandWaitTime : Nat
deriving DecidableEq

/-- `CONFIG` of the unnamed variant. -/
def CONFIGv2 : ConfigV2 :=
  { containerSelector := ".recommend-list-v1"
    expandBtnSelector := ".recommend-list-v1 .rec-footer"
    upLinkSelector := ".video-page-card-small .upname a"
    blockInterval := 300
    expandWaitTime := 1500 }

/-! ## Utility: truthiness of the csrf token -/

/-- JavaScript truthiness of the `csrf_token` binding (`null` and `""` are
falsy, every other string truthy). -/
def isTruthy : Option String → Bool
  | none => false
  | some s => !s.isEmpty

/-! ## `parseUidFromUrl`

`const parseUidFromUrl = (url) => { const match = url.match(/space\.bilibili\.com\/(\d+)/); return match ? match[1] : null; };`

JavaScript `String.match` with a non-global regex finds the leftmost match:
the first position at which the literal marker `space.bilibili.com/` occurs
immediately followed by at least one decimal digit; the capture group `(\d+)`
is greedy, taking the maximal digit run there. -/

/-- The literal characters of the regex marker `space.bilibili.com/`. -/
def markerChars : List Char := "space.bilibili.com/".data

/-- Try to match the regex at the head of `cs`: the marker must be a prefix
and at least one digit must follow; the capture is the maximal digit run. -/
def matchAt (cs : List Char) : Option (List Char) :=
  if markerChars.isPrefixOf cs then
    if ((cs.drop markerChars.length).takeWhile Char.isDigit).isEmpty then none
    else some ((cs.drop markerChars.length).takeWhile Char.isDigit)
  else none

/-- Leftmost-match search: try each start position from the left. -/
def scanUid : List Char → Option (List Char)
  | [] => none
  | c :: cs =>
    match matchAt (c :: cs) with
    | some d => some d
    | none => scanUid cs

def parseUidFromUrl (url : String) : Option String :=
  (scanUid url.data).map fun d => String.mk d

/-! ## `blockUser` -/

/-- The parsed JSON body returned by the relation-modify endpoint; the
`message` field may be absent. -/
structure BiliResponse where
  code : Int
  message : Option String
deriving DecidableEq

/-- Outcome of the `fetch` call.  `failure` = the promise rejected (network
error); `response status body` = an HTTP response arrived (any status
resolves), with `body = none` when `res.json()` throws on an unparseable
body. -/
inductive FetchOutcome where
  | failure : FetchOutcome
  | response (status : Nat) (body : Option BiliResponse) : FetchOutcome
deriving DecidableEq

/-- The per-attempt result object of `blockUser`; `uid` and `msg` are
`Option` because the JavaScript object literals include them only on some
branches. -/
structure BlockResult where
  success : Bool
  uid : Option String
  msg : Option String
deriving DecidableEq

/-- Observable actions of a run. -/
inductive Event where
  | request (uid : String) : Event
  | alert (msg : String) : Event
  | confirm (msg : String) : Event
  | click : Event
  | sleep (ms : Nat) : Event
  | status (current total : Nat) (uid : String) : Event
deriving DecidableEq

/-- `blockUser(uid)`: bail out with `{success:false, msg:"Not Logged In"}`
when the token is falsy (no request issued); otherwise issue exactly one
POST.  The HTTP status of the response is never inspected: `data.code === 0`
decides success, any other code returns `data.message` verbatim, and the
`catch` branch (rejected fetch or unparseable body) returns
`"Network Error"`.  The second component is the trace of issued requests. -/
def blockUser (token : Option String) (uid : String) (outcome : FetchOutcome) :
    BlockResult × List Event :=
  if isTruthy token then
    match outcome with
    | .failure =>
        ({ success := false, uid := some uid, msg := some "Network Error" }, [.request uid])
    | .response _ none =>
        ({ success := false, uid := some uid, msg := some "Network Error" }, [.request uid])
    | .response _ (some data) =>
        if data.code = 0 then
          ({ success := true, uid := some uid, msg := none }, [.request uid])
        else
          ({ success := false, uid := some uid, msg := data.message }, [.request uid])
  else
    ({ success := false, uid := none, msg := some "Not Logged In" }, [])

/-! ## `getRecommendationUids` -/

/-- An anchor element matched by the up-link selector; `href` is the
resolved URL. -/
structure Link where
  href : String
deriving DecidableEq

/-- The DOM state the script queries. -/
structure Dom where
  container : Option (List Link)
  expandButton : Option Bool
deriving DecidableEq

/-- `uids.add(uid)` on a JavaScript `Set`: append iff not already present
(insertion order is preserved by `Array.from`). -/
def addUid (acc : List String) (u : String) : List String :=
  if u ∈ acc then acc else acc ++ [u]

/-- The body of the `links.forEach` loop followed by `Array.from(uids)`:
parse each href, skip the ones that do not parse (`if (uid)` — `parseUidFromUrl`
never returns an empty string), insert the rest into the set in DOM order. -/
def collectUids (links : List Link) : List String :=
  (links.filterMap fun l => parseUidFromUrl l.href).foldl addUid []

/-- Alert text of `src/main.js` when the container is missing. -/
def containerNotFoundMsg : String :=
  "❌ Container not found (.recommend-list-v1). Page structure might have changed."

/-- `getRecommendationUids` of `src/main.js`: alert and return `[]` when the
container is absent, otherwise collect the parsed uids. -/
def getRecommendationUids (dom : Dom) : List String × List Event :=
  match dom.container with
  | none => ([], [.alert containerNotFoundMsg])
  | some links => (collectUids links, [])

/-- `getRecommendationUids` of the unnamed variant: same collection, but a
missing container only returns `[]` (no alert). -/
def getRecommendationUidsV2 (dom : Dom) : List String :=
  match dom.container with
  | none => []
  | some links => collectUids links

/-! ## `expandListIfNeeded` (unnamed variant only) -/

/-- Click the expand control and wait `expandWaitTime` iff the control
exists and is visible (`expandBtn && expandBtn.offsetParent !== null`);
otherwise do nothing. -/
def expandListIfNeeded (dom : Dom) : List Event :=
  match dom.expandButton with
  | some true => [.click, .sleep CONFIGv2.expandWaitTime]
  | _ => []

/-! ## `startBatchBlock` -/

/-- The `for` loop of step "Batch Process": for each uid, update the status
overlay, await `blockUser`, bump the counter on success, then sleep the
fixed interval.  Returns the final success count and the event trace;
`i` is the 0-based loop index, `total` the display total. -/
def runLoop (token : Option String) (oracle : String → FetchOutcome) (total : Nat) :
    List String → Nat → Nat × List Event
  | [], _ => (0, [])
  | uid :: rest, i =>
    let r := blockUser token uid (oracle uid)
    let tail := runLoop token oracle total rest (i + 1)
    ((if r.1.success then 1 else 0) + tail.1,
      Event.status (i + 1) total uid :: r.2 ++ Event.sleep CONFIG.blockInterval :: tail.2)

/-- How a triggered run ends; everything except `completed` returns to the
idle state before any blocking happened. -/
inductive BatchOutcome where
  | notLoggedIn : BatchOutcome
  | noCreators : BatchOutcome
  | cancelled : BatchOutcome
  | completed (successCount total : Nat) : BatchOutcome
deriving DecidableEq

def loginAlertMsg : String := "Please login to Bilibili first."

def noCreatorsMsg : String :=
  "⚠️ No creators found. Wait for the list to load or scroll down slightly."

def confirmMsg (n : Nat) : String :=
  s!"Found {n} creators in \"Up Next\" & Recommendations.\n\nAre you sure you want to BLOCK them all?"

def summaryMsg (succ total : Nat) : String :=
  s!"✅ Batch block complete.\nSuccessfully blocked: {succ}/{total}"

/-- `startBatchBlock` of `src/main.js`.  `userConfirms` is the answer the
user gives to the `confirm` dialog. -/
def startBatchBlock (token : Option String) (dom : Dom) (userConfirms : Bool)
    (oracle : String → FetchOutcome) : BatchOutcome × List Event :=
  if isTruthy token then
    let ext := getRecommendationUids dom
    if ext.1.isEmpty then
      (.noCreators, ext.2 ++ [.alert noCreatorsMsg])
    else if userConfirms then
      let res := runLoop token oracle ext.1.length ext.1 0
      (.completed res.1 ext.1.length,
        ext.2 ++ Event.confirm (confirmMsg ext.1.length) :: res.2
          ++ [.alert (summaryMsg res.1 ext.1.length)])
    else
      (.cancelled, ext.2 ++ [.confirm (confirmMsg ext.1.length)])
  else
    (.notLoggedIn, [.alert loginAlertMsg])

def noCreatorsMsgV2 : String := "⚠️ No creators found. Please check page structure."

def confirmMsgV2 (n : Nat) : String :=
  s!"Found {n} creators (List Expanded).\n\nAre you sure you want to BLOCK them all?"

/-- `startBatchBlock` of the unnamed variant: the expand step runs first,
then the same workflow (the loop body is identical, interval 300). -/
def startBatchBlockV2 (token : Option String) (dom : Dom) (userConfirms : Bool)
    (oracle : String → FetchOutcome) : BatchOutcome × List Event :=
  if isTruthy token then
    let evExpand := expandListIfNeeded dom
    let uids := getRecommendationUidsV2 dom
    if uids.isEmpty then
      (.noCreators, evExpand ++ [.alert noCreatorsMsgV2])
    else if userConfirms then
      let res := runLoop token oracle uids.length uids 0
      (.completed res.1 uids.length,
        evExpand ++ Event.confirm (confirmMsgV2 uids.length) :: res.2
          ++ [.alert (summaryMsg res.1 uids.length)])
    else
      (.cancelled, evExpand ++ [.confirm (confirmMsgV2 uids.length)])
  else
    (.notLoggedIn, [.alert loginAlertMsg])

/-! ## Parser lemmas -/

/-- A successful `matchAt` decomposes its input: the marker sits at the
head, followed by the captured (non-empty, all-digit) run. -/
theorem matchAt_sound (cs d : List Char) (h : matchAt cs = some d) :
    ∃ post, cs = markerChars ++ d ++ post ∧ d ≠ [] ∧ d.all Char.isDigit = true := by
  unfold matchAt at h
  split at h
  case isTrue hpre =>
    obtain ⟨rest, hrest⟩ := List.isPrefixOf_iff_prefix.mp hpre
    subst hrest
    rw [List.drop_left] at h
    split at h
    case isTrue => exact absurd h (by simp)
    case isFalse hne =>
      obtain rfl := Option.some.inj h
      refine ⟨rest.dropWhile Char.isDigit, ?_, ?_, ?_⟩
      · rw [List.append_assoc, List.takeWhile_append_dropWhile]
      · intro hnil
        rw [hnil] at hne
        simp at hne
      · exact List.all_eq_true.mpr fun x hx => List.mem_takeWhile_imp hx
  case isFalse => exact absurd h (by simp)

/-- A successful scan decomposes its input around the first match. -/
theorem scanUid_sound : ∀ cs d, scanUid cs = some d →
    ∃ pre post, cs = pre ++ markerChars ++ d ++ post ∧ d ≠ [] ∧ d.all Char.isDigit = true := by
  intro cs
  induction cs with
  | nil => intro d h; exact absurd h (by simp [scanUid])
  | cons c rest ih =>
    intro d h
    unfold scanUid at h
    cases hm : matchAt (c :: rest) with
    | some d0 =>
      rw [hm] at h
      obtain rfl := Option.some.inj h
      obtain ⟨post, hdec, hne, hdig⟩ := matchAt_sound _ _ hm
      exact ⟨[], post, by simpa using hdec, hne, hdig⟩
    | none =>
      rw [hm] at h
      obtain ⟨pre, post, hdec, hne, hdig⟩ := ih d h
      exact ⟨c :: pre, post, by simp [hdec], hne, hdig⟩

/-- `parseUidFromUrl` only ever returns a non-empty digit string, obtained
from a decomposition of the input around the marker. -/
theorem parseUid_sound (url : String) (s : String) (h : parseUidFromUrl url = some s) :
    ∃ pre post, url.data = pre ++ markerChars ++ s.data ++ post ∧
      s.data ≠ [] ∧ s.data.all Char.isDigit = true := by
  unfold parseUidFromUrl at h
  cases hs : scanUid url.data with
  | none => rw [hs] at h; exact absurd h (by simp)
  | some d =>
    rw [hs] at h
    simp only [Option.map_some'] at h
    obtain rfl := Option.some.inj h
    exact scanUid_sound _ _ hs

/-! ## Claim theorems: URL parsing -/

/-- C5: a profile URL of the form `https://space.bilibili.com/123456?from=rec`
parses to the identifier `"123456"`; any URL lacking the marker followed by a
digit run parses to no identifier (every successful parse decomposes the URL
around the marker), and the extractor simply excludes such links from the
result instead of failing. -/
theorem C5_roundtrip :
    parseUidFromUrl "https://space.bilibili.com/123456?from=rec" = some "123456" ∧
    (∀ url s, parseUidFromUrl url = some s →
      ∃ pre post, url.data = pre ++ markerChars ++ s.data ++ post ∧
        s.data ≠ [] ∧ s.data.all Char.isDigit = true) ∧
    collectUids [⟨"https://space.bilibili.com/123456?from=rec"⟩,
      ⟨"https://www.bilibili.com/video/BV1xx"⟩] = ["123456"] :=
  ⟨by decide, fun url s h => parseUid_sound url s h, by decide⟩

/-- C5 witness: the soundness half applied at a concrete URL. -/
theorem C5_roundtrip_witness :
    parseUidFromUrl "x space.bilibili.com/9z" = some "9" ∧
    ∃ pre post, ("x space.bilibili.com/9z" : String).data =
        pre ++ markerChars ++ ("9" : String).data ++ post ∧
      ("9" : String).data ≠ [] ∧ ("9" : String).data.all Char.isDigit = true :=
  ⟨by decide, C5_roundtrip.2.1 "x space.bilibili.com/9z" "9" (by decide)⟩

/-- C9: the parser returns `none` or a non-empty all-digit string, and the
regex is unanchored: it captures the digit run after the first occurrence of
`space.bilibili.com/` anywhere in the string, e.g. inside a query
parameter. -/
theorem C9_parser_shape :
    (∀ url, parseUidFromUrl url = none ∨
      ∃ s, parseUidFromUrl url = some s ∧ s.data ≠ [] ∧ s.data.all Char.isDigit = true) ∧
    parseUidFromUrl "https://evil.example/?u=space.bilibili.com/42&x=1" = some "42" ∧
    parseUidFromUrl "pre space.bilibili.com/11 post space.bilibili.com/22" = some "11" := by
  refine ⟨fun url => ?_, by decide, by decide⟩
  cases h : parseUidFromUrl url with
  | none => exact Or.inl rfl
  | some s =>
    obtain ⟨pre, post, _, hne, hdig⟩ := parseUid_sound url s h
    exact Or.inr ⟨s, rfl, hne, hdig⟩

/-! ## Claim theorems: `blockUser` -/

/-- C2: with an absent or empty csrf token, `blockUser` returns the
`"Not Logged In"` failure for every uid without issuing any request, and a
triggered `startBatchBlock` only alerts the login message and returns —
no extraction, confirmation or blocking happens. -/
theorem C2_unauthenticated (token : Option String) (uid : String) (outcome : FetchOutcome)
    (dom : Dom) (userConfirms : Bool) (oracle : String → FetchOutcome)
    (htok : isTruthy token = false) :
    blockUser token uid outcome =
      ({ success := false, uid := none, msg := some "Not Logged In" }, []) ∧
    startBatchBlock token dom userConfirms oracle = (.notLoggedIn, [.alert loginAlertMsg]) := by
  constructor
  · simp [blockUser, htok]
  · simp [startBatchBlock, htok]

/-- C2 witness: the theorem at `token = none` with a concrete uid, DOM and
oracle. -/
theorem C2_unauthenticated_witness :
    isTruthy none = false ∧
    blockUser none "123" .failure =
      ({ success := false, uid := none, msg := some "Not Logged In" }, []) ∧
    startBatchBlock none ⟨none, none⟩ true (fun _ => .failure) =
      (.notLoggedIn, [.alert loginAlertMsg]) :=
  ⟨rfl, C2_unauthenticated none "123" .failure ⟨none, none⟩ true (fun _ => .failure) rfl⟩

/-- C3 counterexample: the HTTP status of the response is never inspected.
A 500 response whose JSON body has `code: 0` yields a success result, and a
404 response with `code: -101` yields the provider-message failure — the
claim instead demands a "network error" failure for every non-2xx
response. -/
theorem C3_counterexample :
    (blockUser (some "tok") "123" (.response 500 (some ⟨0, none⟩))).1 =
      { success := true, uid := some "123", msg := none } ∧
    (blockUser (some "tok") "123" (.response 404 (some ⟨-101, some "not logged in"⟩))).1 =
      { success := false, uid := some "123", msg := some "not logged in" } := by
  decide

/-- C3 amended: the result is decided by the JSON `code` field alone
whenever the body parses, regardless of HTTP status (`code = 0` → success,
any other code → failure carrying the provider's message verbatim); a
rejected fetch (transport failure) or an unparseable body yields the
`"Network Error"` failure. -/
theorem C3_response_handling (token : Option String) (uid : String) (status : Nat)
    (data : BiliResponse) (htok : isTruthy token = true) :
    (blockUser token uid .failure).1 =
      { success := false, uid := some uid, msg := some "Network Error" } ∧
    (blockUser token uid (.response status none)).1 =
      { success := false, uid := some uid, msg := some "Network Error" } ∧
    (data.code = 0 →
      (blockUser token uid (.response status (some data))).1 =
        { success := true, uid := some uid, msg := none }) ∧
    (data.code ≠ 0 →
      (blockUser token uid (.response status (some data))).1 =
        { success := false, uid := some uid, msg := data.message }) := by
  refine ⟨by simp [blockUser, htok], by simp [blockUser, htok], fun h => ?_, fun h => ?_⟩
  · simp [blockUser, htok, h]
  · simp [blockUser, htok, h]

/-- C3 witness: the amended theorem at concrete inputs, both code branches
and the transport-failure branch. -/
theorem C3_response_handling_witness :
    isTruthy (some "tok") = true ∧
    (blockUser (some "tok") "9" .failure).1 =
      { success := false, uid := some "9", msg := some "Network Error" } ∧
    (blockUser (some "tok") "9" (.response 200 (some ⟨0, none⟩))).1 =
      { success := true, uid := some "9", msg := none } ∧
    (blockUser (some "tok") "9" (.response 200 (some ⟨-6, some "m"⟩))).1 =
      { success := false, uid := some "9", msg := some "m" } :=
  ⟨rfl,
   (C3_response_handling (some "tok") "9" 200 ⟨0, none⟩ rfl).1,
   (C3_response_handling (some "tok") "9" 200 ⟨0, none⟩ rfl).2.2.1 rfl,
   (C3_response_handling (some "tok") "9" 200 ⟨-6, some "m"⟩ rfl).2.2.2 (by decide)⟩

/-- C7 counterexample: the unauthenticated branch omits the `uid` field
from the result object, and a provider rejection whose body carries no
`message` yields a failure without a message — the claim instead demands
the identifier on every branch and a message on every failure. -/
theorem C7_counterexample :
    (blockUser none "123" (.response 200 (some ⟨0, none⟩))).1.uid = none ∧
    (blockUser (some "tok") "123" (.response 200 (some ⟨-6, none⟩))).1.success = false ∧
    (blockUser (some "tok") "123" (.response 200 (some ⟨-6, none⟩))).1.msg = none := by
  decide

/-- C7 amended: every result carries the boolean `success` flag; the
identifier is present on every branch except the unauthenticated one (which
is exactly `{success: false, msg: "Not Logged In"}` with no uid); and a
failure always carries a message except when the provider rejected with a
body lacking the `message` field. -/
theorem C7_result_shape (token : Option String) (uid : String) (outcome : FetchOutcome) :
    (isTruthy token = true → (blockUser token uid outcome).1.uid = some uid) ∧
    (isTruthy token = false → (blockUser token uid outcome).1 =
      { success := false, uid := none, msg := some "Not Logged In" }) ∧
    ((blockUser token uid outcome).1.success = false →
      (blockUser token uid outcome).1.msg = none →
      ∃ status data, outcome = .response status (some data) ∧
        data.code ≠ 0 ∧ data.message = none) := by
  cases htok : isTruthy token with
  | false =>
    refine ⟨fun h => by simp [htok] at h, fun _ => by simp [blockUser, htok], fun _ hmsg => ?_⟩
    simp [blockUser, htok] at hmsg
  | true =>
    refine ⟨fun _ => ?_, fun h => by simp [htok] at h, fun hsucc hmsg => ?_⟩
    · cases outcome with
      | failure => simp [blockUser, htok]
      | response status body =>
        cases body with
        | none => simp [blockUser, htok]
        | some data =>
          by_cases hc : data.code = 0
          · simp [blockUser, htok, hc]
          · simp [blockUser, htok, hc]
    · cases outcome with
      | failure => simp [blockUser, htok] at hmsg
      | response status body =>
        cases body with
        | none => simp [blockUser, htok] at hmsg
        | some data =>
          by_cases hc : data.code = 0
          · simp [blockUser, htok, hc] at hsucc
          · refine ⟨status, data, rfl, hc, ?_⟩
            simpa [blockUser, htok, hc] using hmsg

/-- C7 witness: the amended shape at concrete inputs, authenticated and
not. -/
theorem C7_result_shape_witness :
    isTruthy (some "tok") = true ∧
    (blockUser (some "tok") "5" .failure).1.uid = some "5" ∧
    isTruthy none = false ∧
    (blockUser none "5" .failure).1 =
      { success := false, uid := none, msg := some "Not Logged In" } :=
  ⟨rfl, (C7_result_shape (some "tok") "5" .failure).1 rfl, rfl,
   (C7_result_shape none "5" .failure).2.1 rfl⟩

/-! ## Claim theorems: orchestration -/

/-- C8: `expandListIfNeeded` clicks the control and then waits the fixed
1500 ms exactly when the control is present and visible; when it is absent
or hidden nothing happens, and in `startBatchBlockV2` whatever the expand
step does precedes everything else (extraction runs right after it). -/
theorem C8_expand_step (dom : Dom) (token : Option String) (userConfirms : Bool)
    (oracle : String → FetchOutcome) :
    (dom.expandButton = some true →
      expandListIfNeeded dom = [.click, .sleep CONFIGv2.expandWaitTime]) ∧
    (dom.expandButton = some false → expandListIfNeeded dom = []) ∧
    (dom.expandButton = none → expandListIfNeeded dom = []) ∧
    (isTruthy token = true → ∃ rest,
      (startBatchBlockV2 token dom userConfirms oracle).2 = expandListIfNeeded dom ++ rest) := by
  refine ⟨fun h => by simp [expandListIfNeeded, h], fun h => by simp [expandListIfNeeded, h],
    fun h => by simp [expandListIfNeeded, h], fun htok => ?_⟩
  unfold startBatchBlockV2
  rw [htok]
  simp only [if_true]
  split
  · exact ⟨_, rfl⟩
  · split
    · exact ⟨_, by rw [List.append_assoc]⟩
    · exact ⟨_, rfl⟩

/-- C8 witness: the theorem at a visible control, a hidden one, an absent
one, and a concrete run whose trace starts with the expand events. -/
theorem C8_expand_step_witness :
    (⟨none, some true⟩ : Dom).expandButton = some true ∧
    expandListIfNeeded ⟨none, some true⟩ = [.click, .sleep CONFIGv2.expandWaitTime] ∧
    expandListIfNeeded ⟨none, some false⟩ = [] ∧
    expandListIfNeeded ⟨none, none⟩ = [] ∧
    isTruthy (some "tok") = true ∧
    ∃ rest, (startBatchBlockV2 (some "tok") ⟨none, some true⟩ true (fun _ => .failure)).2 =
      expandListIfNeeded ⟨none, some true⟩ ++ rest :=
  ⟨rfl,
   (C8_expand_step ⟨none, some true⟩ (some "tok") true (fun _ => .failure)).1 rfl,
   (C8_expand_step ⟨none, some false⟩ (some "tok") true (fun _ => .failure)).2.1 rfl,
   (C8_expand_step ⟨none, none⟩ (some "tok") true (fun _ => .failure)).2.2.1 rfl,
   rfl,
   (C8_expand_step ⟨none, some true⟩ (some "tok") true (fun _ => .failure)).2.2.2 rfl⟩

/-- C1: with the endpoint answering `code 0` for `A` and `B` and `code -6`
for `C`, the loop over `[A, B, C]` produces success count 2 and the strictly
sequential trace: status update, one request and one fixed 300 ms sleep per
identifier, in order `A, B, C` — the failing `C` is still processed and
still followed by the sleep. -/
theorem C1_batch_run (A B C : String) (token : Option String)
    (oracle : String → FetchOutcome) (stA stB stC : Nat) (mA mB mC : Option String)
    (htok : isTruthy token = true)
    (hA : oracle A = .response stA (some ⟨0, mA⟩))
    (hB : oracle B = .response stB (some ⟨0, mB⟩))
    (hC : oracle C = .response stC (some ⟨-6, mC⟩)) :
    runLoop token oracle 3 [A, B, C] 0 =
      (2, [.status 1 3 A, .request A, .sleep CONFIG.blockInterval,
           .status 2 3 B, .request B, .sleep CONFIG.blockInterval,
           .status 3 3 C, .request C, .sleep CONFIG.blockInterval]) := by
  simp [runLoop, blockUser, htok, hA, hB, hC]

/-- C1 witness: the theorem at concrete identifiers and a concrete mocked
oracle. -/
theorem C1_batch_run_witness :
    isTruthy (some "tok") = true ∧
    (fun u => if u = "3" then FetchOutcome.response 200 (some ⟨-6, none⟩)
      else FetchOutcome.response 200 (some ⟨0, none⟩)) "1" =
        FetchOutcome.response 200 (some ⟨0, none⟩) ∧
    runLoop (some "tok")
      (fun u => if u = "3" then FetchOutcome.response 200 (some ⟨-6, none⟩)
        else FetchOutcome.response 200 (some ⟨0, none⟩)) 3 ["1", "2", "3"] 0 =
      (2, [.status 1 3 "1", .request "1", .sleep CONFIG.blockInterval,
           .status 2 3 "2", .request "2", .sleep CONFIG.blockInterval,
           .status 3 3 "3", .request "3", .sleep CONFIG.blockInterval]) :=
  ⟨rfl, by decide,
   C1_batch_run "1" "2" "3" (some "tok") _ 200 200 200 none none none rfl
     (by decide) (by decide) (by decide)⟩

/-- C6: when the recommendation container is absent, the `src/main.js`
extractor returns `[]` and raises a user-visible alert naming the missing
container; the variant extractor returns `[]` silently; and both
orchestrators then alert the user and end in the no-creators outcome,
emitting no confirmation prompt and no request. -/
theorem C6_container_absent (token : Option String) (dom : Dom) (userConfirms : Bool)
    (oracle : String → FetchOutcome)
    (htok : isTruthy token = true) (hc : dom.container = none) :
    getRecommendationUids dom = ([], [.alert containerNotFoundMsg]) ∧
    getRecommendationUidsV2 dom = [] ∧
    startBatchBlock token dom userConfirms oracle =
      (.noCreators, [.alert containerNotFoundMsg, .alert noCreatorsMsg]) ∧
    startBatchBlockV2 token dom userConfirms oracle =
      (.noCreators, expandListIfNeeded dom ++ [.alert noCreatorsMsgV2]) := by
  refine ⟨by simp [getRecommendationUids, hc], by simp [getRecommendationUidsV2, hc], ?_, ?_⟩
  · simp [startBatchBlock, getRecommendationUids, hc, htok]
  · simp [startBatchBlockV2, getRecommendationUidsV2, hc, htok]

/-- C6 witness: the theorem at a concrete containerless DOM. -/
theorem C6_container_absent_witness :
    isTruthy (some "tok") = true ∧
    (⟨none, none⟩ : Dom).container = none ∧
    getRecommendationUids ⟨none, none⟩ = ([], [.alert containerNotFoundMsg]) ∧
    startBatchBlock (some "tok") ⟨none, none⟩ true (fun _ => .failure) =
      (.noCreators, [.alert containerNotFoundMsg, .alert noCreatorsMsg]) :=
  ⟨rfl, rfl,
   (C6_container_absent (some "tok") ⟨none, none⟩ true (fun _ => .failure) rfl rfl).1,
   (C6_container_absent (some "tok") ⟨none, none⟩ true (fun _ => .failure) rfl rfl).2.2.1⟩

/-! ## Deduplication lemmas

`firstOccurrenceDedup` is the specification-side description of the
extractor's output order: keep each identifier at its first occurrence,
dropping all later duplicates — the insertion-order semantics of a
JavaScript `Set`.  The fold over `addUid` (the embedding of the actual
`forEach`/`Set.add` loop) is proved equal to it. -/

def firstOccurrenceDedup : List String → List String
  | [] => []
  | a :: t => a :: firstOccurrenceDedup (t.filter fun x => !decide (x = a))
termination_by l => l.length
decreasing_by
  simp only [List.length_cons]
  exact Nat.lt_succ_of_le (t.length_filter_le _)

/-- Number of entries of the list that duplicate another (each element
beyond the first occurrence of its value counts once). -/
def dupCount : List String → Nat
  | [] => 0
  | a :: t => dupCount t + (if a ∈ t then 1 else 0)

theorem foldl_addUid_eq (l : List String) : ∀ acc : List String,
    l.foldl addUid acc = acc ++ firstOccurrenceDedup (l.filter fun x => !decide (x ∈ acc)) := by
  induction l with
  | nil => intro acc; simp [firstOccurrenceDedup]
  | cons a t ih =>
    intro acc
    by_cases ha : a ∈ acc
    · rw [List.foldl_cons, show addUid acc a = acc from if_pos ha, ih acc]
      congr 2
      rw [List.filter_cons_of_neg (by simp [ha])]
    · rw [List.foldl_cons, show addUid acc a = acc ++ [a] from if_neg ha, ih (acc ++ [a]),
        List.filter_cons_of_pos (by simp [ha]), firstOccurrenceDedup, List.filter_filter,
        List.append_assoc, List.singleton_append]
      congr 3
      apply List.filter_congr
      intro x _
      by_cases h1 : x ∈ acc <;> by_cases h2 : x = a <;> simp [h1, h2]

theorem firstOccurrenceDedup_sublist (l : List String) : (firstOccurrenceDedup l).Sublist l := by
  induction l using firstOccurrenceDedup.induct with
  | case1 => simp [firstOccurrenceDedup]
  | case2 a t ih =>
    rw [firstOccurrenceDedup]
    exact (ih.trans (List.filter_sublist t)).cons₂ a

theorem mem_firstOccurrenceDedup (l : List String) (x : String) :
    x ∈ firstOccurrenceDedup l ↔ x ∈ l := by
  induction l using firstOccurrenceDedup.induct with
  | case1 => simp [firstOccurrenceDedup]
  | case2 a t ih =>
    rw [firstOccurrenceDedup]
    by_cases hx : x = a
    · simp [hx]
    · simp only [List.mem_cons, hx, false_or, ih, List.mem_filter, Bool.not_eq_true',
        decide_eq_false_iff_not]
      tauto

theorem firstOccurrenceDedup_nodup (l : List String) : (firstOccurrenceDedup l).Nodup := by
  induction l using firstOccurrenceDedup.induct with
  | case1 => simp [firstOccurrenceDedup]
  | case2 a t ih =>
    rw [firstOccurrenceDedup]
    refine List.Nodup.cons (fun hmem => ?_) ih
    rw [mem_firstOccurrenceDedup] at hmem
    have := (List.mem_filter.mp hmem).2
    simp at this

theorem dupCount_add_card (l : List String) : dupCount l + l.toFinset.card = l.length := by
  induction l with
  | nil => rfl
  | cons a t ih =>
    by_cases ha : a ∈ t
    · rw [dupCount, if_pos ha, List.toFinset_cons,
        Finset.insert_eq_self.mpr (List.mem_toFinset.mpr ha), List.length_cons, ← ih]
      omega
    · rw [dupCount, if_neg ha, List.toFinset_cons,
        Finset.card_insert_of_not_mem (fun hmem => ha (List.mem_toFinset.mp hmem)),
        List.length_cons, ← ih]
      omega

theorem firstOccurrenceDedup_length (l : List String) :
    (firstOccurrenceDedup l).length = l.length - dupCount l := by
  have hcard : (firstOccurrenceDedup l).toFinset.card = (firstOccurrenceDedup l).length :=
    List.toFinset_card_of_nodup (firstOccurrenceDedup_nodup l)
  have hset : (firstOccurrenceDedup l).toFinset = l.toFinset := by
    ext x
    simp [List.mem_toFinset, mem_firstOccurrenceDedup]
  have hsum := dupCount_add_card l
  rw [hset] at hcard
  omega

theorem length_filterMap_of_all_some {α β : Type} (f : α → Option β) (l : List α)
    (h : ∀ a ∈ l, (f a).isSome = true) : (l.filterMap f).length = l.length := by
  induction l with
  | nil => rfl
  | cons a t ih =>
    obtain ⟨b, hb⟩ := Option.isSome_iff_exists.mp (h a (List.mem_cons_self a t))
    rw [List.filterMap_cons_some hb, List.length_cons, List.length_cons,
      ih fun x hx => h x (List.mem_cons_of_mem a hx)]

theorem collectUids_eq (links : List Link) :
    collectUids links = firstOccurrenceDedup (links.filterMap fun l => parseUidFromUrl l.href) := by
  unfold collectUids
  rw [foldl_addUid_eq]
  simp

/-- A DOM fixture with three parseable profile links, the first and third
sharing one identifier. -/
def sampleLinks : List Link :=
  [⟨"https://space.bilibili.com/77/"⟩, ⟨"https://space.bilibili.com/88?from=rec"⟩,
   ⟨"https://space.bilibili.com/77"⟩]

/-- C4: over a container of parseable profile links, the extractor returns
the parsed identifiers deduplicated at their first occurrence, in DOM
order: the result has exactly `N - D` entries (`N` links, `D` duplicates),
is duplicate-free, is a subsequence of the parsed identifiers, contains
exactly the identifiers that occur, and every entry is a non-empty digit
string. -/
theorem C4_extractor_dedup (dom : Dom) (links : List Link)
    (hc : dom.container = some links)
    (hp : ∀ l ∈ links, (parseUidFromUrl l.href).isSome = true) :
    (getRecommendationUids dom).1 =
      firstOccurrenceDedup (links.filterMap fun l => parseUidFromUrl l.href) ∧
    getRecommendationUidsV2 dom =
      firstOccurrenceDedup (links.filterMap fun l => parseUidFromUrl l.href) ∧
    (getRecommendationUids dom).1.length =
      links.length - dupCount (links.filterMap fun l => parseUidFromUrl l.href) ∧
    (getRecommendationUids dom).1.Nodup ∧
    (getRecommendationUids dom).1.Sublist (links.filterMap fun l => parseUidFromUrl l.href) ∧
    (∀ x, x ∈ (getRecommendationUids dom).1 ↔
      x ∈ links.filterMap fun l => parseUidFromUrl l.href) ∧
    (∀ x ∈ (getRecommendationUids dom).1, x.data ≠ [] ∧ x.data.all Char.isDigit = true) := by
  have hres : (getRecommendationUids dom).1 = collectUids links := by
    simp [getRecommendationUids, hc]
  have hres2 : getRecommendationUidsV2 dom = collectUids links := by
    simp [getRecommendationUidsV2, hc]
  rw [hres, hres2, collectUids_eq]
  refine ⟨rfl, rfl, ?_, firstOccurrenceDedup_nodup _, firstOccurrenceDedup_sublist _,
    fun x => mem_firstOccurrenceDedup _ x, fun x hx => ?_⟩
  · rw [firstOccurrenceDedup_length, length_filterMap_of_all_some _ _ hp]
  · rw [mem_firstOccurrenceDedup] at hx
    obtain ⟨l, _, hparse⟩ := List.mem_filterMap.mp hx
    obtain ⟨pre, post, _, hne, hdig⟩ := parseUid_sound _ _ hparse
    exact ⟨hne, hdig⟩

/-- C4 witness: the theorem at the concrete fixture — three links, one
duplicate, result `["77", "88"]` of length `3 - 1`. -/
theorem C4_extractor_dedup_witness :
    (∀ l ∈ sampleLinks, (parseUidFromUrl l.href).isSome = true) ∧
    (getRecommendationUids ⟨some sampleLinks, none⟩).1 =
      firstOccurrenceDedup (sampleLinks.filterMap fun l => parseUidFromUrl l.href) ∧
    (getRecommendationUids ⟨some sampleLinks, none⟩).1.length =
      sampleLinks.length - dupCount (sampleLinks.filterMap fun l => parseUidFromUrl l.href) ∧
    (getRecommendationUids ⟨some sampleLinks, none⟩).1 = ["77", "88"] :=
  ⟨by decide,
   (C4_extractor_dedup ⟨some sampleLinks, none⟩ sampleLinks rfl (by decide)).1,
   (C4_extractor_dedup ⟨some sampleLinks, none⟩ sampleLinks rfl (by decide)).2.2.1,
   by decide⟩

/-! ## Loop counter lemmas -/

theorem runLoop_count_le (token : Option String) (oracle : String → FetchOutcome) (total : Nat) :
    ∀ (uids : List String) (i : Nat), (runLoop token oracle total uids i).1 ≤ uids.length := by
  intro uids
  induction uids with
  | nil => intro i; simp [runLoop]
  | cons u rest ih =>
    intro i
    simp only [runLoop, List.length_cons]
    have := ih (i + 1)
    split <;> omega

theorem runLoop_count_append (token : Option String) (oracle : String → FetchOutcome)
    (total : Nat) (u : String) :
    ∀ (l : List String) (i : Nat),
      (runLoop token oracle total (l ++ [u]) i).1 =
        (runLoop token oracle total l i).1 +
          (if (blockUser token u (oracle u)).1.success then 1 else 0) := by
  intro l
  induction l with
  | nil =>
    intro i
    simp only [List.nil_append, runLoop]
    omega
  | cons a rest ih =>
    intro i
    simp only [List.cons_append, runLoop, List.append_eq]
    rw [ih (i + 1)]
    omega

/-- Fixture for a completed one-item run. -/
def sampleDom : Dom := ⟨some [⟨"https://space.bilibili.com/777/"⟩], none⟩

/-- Oracle that accepts every block request with `code 0`. -/
def acceptOracle : String → FetchOutcome := fun _ => .response 200 (some ⟨0, none⟩)

/-- The trace of the completed one-item run over `sampleDom`. -/
def sampleTrace : List Event :=
  [.confirm "Found 1 creators in \"Up Next\" & Recommendations.\n\nAre you sure you want to BLOCK them all?",
   .status 1 1 "777", .request "777", .sleep 300,
   .alert "✅ Batch block complete.\nSuccessfully blocked: 1/1"]

/-- C10: the success counter starts at 0, grows by at most 1 per processed
identifier and only on a success result — processing the `k`-th identifier
adds exactly 1 when its `blockUser` call succeeded and exactly 0 otherwise —
stays below the number of identifiers processed so far at every prefix of
the run, and a completed `startBatchBlock` run never reports more successes
than its total. -/
theorem C10_counter_invariant (token : Option String) (oracle : String → FetchOutcome)
    (total i : Nat) (uids : List String) :
    (runLoop token oracle total ([] : List String) i).1 = 0 ∧
    (∀ k, (runLoop token oracle total (uids.take k) i).1 ≤ k) ∧
    (∀ k, (runLoop token oracle total (uids.take k) i).1 ≤
      (runLoop token oracle total (uids.take (k + 1)) i).1) ∧
    (∀ k, (runLoop token oracle total (uids.take (k + 1)) i).1 ≤
      (runLoop token oracle total (uids.take k) i).1 + 1) ∧
    (∀ k u, uids[k]? = some u →
      (runLoop token oracle total (uids.take (k + 1)) i).1 =
        (runLoop token oracle total (uids.take k) i).1 +
          (if (blockUser token u (oracle u)).1.success then 1 else 0)) ∧
    (runLoop token oracle total uids i).1 ≤ uids.length ∧
    (∀ dom userConfirms c t tr,
      startBatchBlock token dom userConfirms oracle = (.completed c t, tr) → c ≤ t) := by
  refine ⟨rfl, fun k => ?_, fun k => ?_, fun k => ?_, fun k u hk => ?_,
    runLoop_count_le token oracle total uids i, fun dom userConfirms c t tr h => ?_⟩
  · calc (runLoop token oracle total (uids.take k) i).1
        ≤ (uids.take k).length := runLoop_count_le token oracle total _ i
      _ ≤ k := by rw [List.length_take]; omega
  · rw [List.take_succ]
    cases uids[k]? with
    | none => simp
    | some u => rw [Option.toList_some, runLoop_count_append]; omega
  · rw [List.take_succ]
    cases uids[k]? with
    | none => simp
    | some u =>
      rw [Option.toList_some, runLoop_count_append]
      split <;> omega
  · rw [List.take_succ, hk, Option.toList_some, runLoop_count_append]
  · simp only [startBatchBlock] at h
    split at h
    · split at h
      · exact absurd h (by simp)
      · split at h
        · rw [Prod.mk.injEq, BatchOutcome.completed.injEq] at h
          obtain ⟨⟨rfl, rfl⟩, -⟩ := h
          exact runLoop_count_le token oracle _ _ 0
        · exact absurd h (by simp)
    · exact absurd h (by simp)

/-- C10 witness: a concrete completed run — one identifier, one success —
with the summary inequality, and the exact success-only step at the first
identifier of `["777"]`. -/
theorem C10_counter_invariant_witness :
    (["777"] : List String)[0]? = some "777" ∧
    (runLoop (some "t") acceptOracle 1 ((["777"] : List String).take (0 + 1)) 0).1 =
      (runLoop (some "t") acceptOracle 1 ((["777"] : List String).take 0) 0).1 +
        (if (blockUser (some "t") "777" (acceptOracle "777")).1.success then 1 else 0) ∧
    startBatchBlock (some "t") sampleDom true acceptOracle = (.completed 1 1, sampleTrace) ∧
    (1 : Nat) ≤ 1 :=
  ⟨rfl,
   (C10_counter_invariant (some "t") acceptOracle 1 0 ["777"]).2.2.2.2.1 0 "777" rfl,
   by decide,
   (C10_counter_invariant (some "t") acceptOracle 0 0 []).2.2.2.2.2.2 sampleDom true 1 1
     sampleTrace (by decide)⟩
